import Mathlib

/-!
Verification of the event dispatch and ordering engine of
aws-pod-eip-controller (`pkg/handler/handler.go`).

The embedding below is a shallow translation of the Go source:

* `event` mirrors the `event` struct fields used by `handler.go`
  (`PodIP`, `ResourceVersion`, `AttachIP`, `ShiedAdv`).
* `Unstructured` models the typed view of a Kubernetes object that
  `Handler.HandleEvent` extracts with `unstructured.NestedString`,
  `GetResourceVersion` and `GetAnnotations`: an optional `status.phase`
  string, an optional `status.podIP` string, a resource version and an
  annotation map (association list).  A field that is absent in the raw
  object is `none`; `NestedString` then reports `exist = false` and the
  zero value `""`.
* `handleEvent` mirrors `Handler.HandleEvent`; its result is `some e`
  exactly when the Go code reaches `h.insert2Queue(event)` with `event = e`,
  and `none` when the Go code returns without enqueueing.
* `processOne` mirrors one iteration of the lane-worker loop
  `Handler.process`: duplicate check against `EipStatusMap[i]`, the
  creation call `e.Process(nil, …)` on a fresh identity, the transition
  call `e.Process(&val, …)` otherwise, and the state commit
  `h.EipStatusMap[i][e.PodIP] = e`.  The outcome of a reconciliation call
  (`e.Process` is repository code outside the extracted source; per the
  design document §4.4 it is the external reconciliation boundary,
  returning a `Result` with no further side effect) is supplied by an
  oracle `ReconcileCall → Option String` (`some err` = failure).
  Log statements of the worker loop are collected in order.
-/

/-- The normalized unit of work (the `event` struct of `pkg/handler`). -/
structure event where
  PodIP : String
  ResourceVersion : String
  AttachIP : Bool
  ShiedAdv : Bool
deriving Repr, DecidableEq

/-- Typed view of the unstructured Kubernetes object as accessed by
`Handler.HandleEvent`.  `none` means the nested field is absent. -/
structure Unstructured where
  phase : Option String
  podIP : Option String
  resourceVersion : String
  anns : List (String × String)
deriving Repr, DecidableEq

/-- Annotation key `service.beta.kubernetes.io/aws-eip-pod-controller-type`. -/
def typeKey : String := "service.beta.kubernetes.io/aws-eip-pod-controller-type"

/-- Annotation key `service.beta.kubernetes.io/aws-eip-pod-controller-shield`. -/
def shieldKey : String := "service.beta.kubernetes.io/aws-eip-pod-controller-shield"

/-- Go `val, ok := annotations[k]; ok && val == v`. -/
def annEnabled (m : List (String × String)) (k v : String) : Bool :=
  match List.lookup k m with
  | some val => val == v
  | none => false

/-- `Handler.HandleEvent(obj, oldObj, action)`: translate one lifecycle
notification into at most one enqueued `event`.  `some e` models the call
`h.insert2Queue(e)`; `none` models an early `return` with nothing enqueued.
(The `err != nil` returns of `NestedString` cannot arise in this typed
model, where a present field is always a string.) -/
def handleEvent (obj oldObj : Unstructured) (action : String) : Option event :=
  -- phase, exist, err := unstructured.NestedString(obj.Object, "status", "phase")
  let phase := obj.phase.getD ""
  let phaseExist := obj.phase.isSome
  if phaseExist && phase != "Running" then none
  else
    -- podIP, exist, err := unstructured.NestedString(obj.Object, "status", "podIP")
    let podIP := obj.podIP.getD ""
    let podIPExist := obj.podIP.isSome
    if podIPExist && podIP.length == 0 then none
    else
      let e0 : event :=
        { PodIP := podIP
          ResourceVersion := obj.resourceVersion
          AttachIP := false
          ShiedAdv := false }
      if action == "update" then
        if annEnabled obj.anns typeKey "auto" then
          some { e0 with
                 AttachIP := true
                 ShiedAdv := annEnabled obj.anns shieldKey "advanced" }
        else if annEnabled oldObj.anns typeKey "auto" then
          some { e0 with AttachIP := false }
        else
          none
      else if action == "delete" then
        some { e0 with ShiedAdv := false, AttachIP := false }
      else
        some e0

/-- A call made against the reconciliation boundary: `e.Process(nil, …)`
(creation) or `e.Process(&val, …)` (transition with previous state). -/
inductive ReconcileCall where
  | create (e : event)
  | transition (prev e : event)
deriving Repr, DecidableEq

/-- A log record emitted by the worker loop: `logrus.Info`-level text or a
`logrus.Error(err)` record carrying an error. -/
inductive LogEntry where
  | info (msg : String)
  | errorLog (err : String)
deriving Repr, DecidableEq

/-- Go map assignment `m[k] = v` on an association-list model. -/
def mapSet (m : List (String × event)) (k : String) (v : event) :
    List (String × event) :=
  match m with
  | [] => [(k, v)]
  | (a, b) :: rest => if a == k then (k, v) :: rest else (a, b) :: mapSet rest k v

/-- Result of running the lane worker: the lane's `EipStatusMap[i]` after the
run, the reconciliation calls made (in order), and the log records emitted. -/
structure ProcResult where
  statusMap : List (String × event)
  calls : List ReconcileCall
  logs : List LogEntry
deriving Repr, DecidableEq

/-- One iteration of the lane-worker loop `Handler.process` on event `e`,
with lane state `m`.  `oracle` supplies the outcome of a reconciliation
call: `some err` models `e.Process(…) = err ≠ nil`. -/
def processOne (oracle : ReconcileCall → Option String)
    (m : List (String × event)) (e : event) : ProcResult :=
  let logs0 := [LogEntry.info "process event"]
  match List.lookup e.PodIP m with
  | some val =>
    if val.ResourceVersion == e.ResourceVersion then
      -- duplicate: log "same resource version", continue
      { statusMap := m
        calls := []
        logs := logs0 ++ [LogEntry.info "same resource version"] }
    else
      -- transition: e.Process(&val, …); the returned error is discarded
      -- unexamined; state is committed regardless
      { statusMap := mapSet m e.PodIP e
        calls := [ReconcileCall.transition val e]
        logs := logs0 }
  | none =>
    -- creation: err := e.Process(nil, …)
    match oracle (ReconcileCall.create e) with
    | some err =>
      -- logrus.Error(err); continue  (no state commit)
      { statusMap := m
        calls := [ReconcileCall.create e]
        logs := logs0 ++ [LogEntry.errorLog err] }
    | none =>
      { statusMap := mapSet m e.PodIP e
        calls := [ReconcileCall.create e]
        logs := logs0 }

/-- Run the lane-worker loop over a list of queued events.  The oracle is
indexed by the number of reconciliation calls made so far (`k`), so a
repeated call may have a different outcome (e.g. a transient failure). -/
def processList (oracle : Nat → ReconcileCall → Option String) (k : Nat)
    (m : List (String × event)) (es : List event) : ProcResult :=
  match es with
  | [] => { statusMap := m, calls := [], logs := [] }
  | e :: rest =>
    let r := processOne (oracle k) m e
    let r2 := processList oracle (k + r.calls.length) r.statusMap rest
    { statusMap := r2.statusMap
      calls := r.calls ++ r2.calls
      logs := r.logs ++ r2.logs }

/-! ### Helper lemmas -/

/-- A nonempty string has nonzero length. -/
theorem String.length_ne_zero_of_ne_empty (s : String) (h : s ≠ "") :
    s.length ≠ 0 := by
  intro h0
  apply h
  cases s with
  | mk data =>
    simp only [String.length] at h0
    simp [List.length_eq_zero.mp h0]

/-- Looking up the key just written by `mapSet` yields the written value. -/
theorem lookup_mapSet_self (m : List (String × event)) (k : String) (v : event) :
    List.lookup k (mapSet m k v) = some v := by
  induction m with
  | nil => simp [mapSet, List.lookup]
  | cons hd tl ih =>
    obtain ⟨a, b⟩ := hd
    by_cases h : a = k
    · subst h
      simp [mapSet, List.lookup]
    · simp only [mapSet]
      rw [if_neg (by simpa using h)]
      have hk : (k == a) = false := by simpa using Ne.symm h
      simp [List.lookup, hk, ih]

/-- The phase filter of `HandleEvent` passes (does not return early) exactly
when the phase field is absent or equals `"Running"`. -/
theorem phase_cond_false (obj : Unstructured)
    (h : obj.phase = none ∨ obj.phase = some "Running") :
    (obj.phase.isSome && (obj.phase.getD "" != "Running")) = false := by
  rcases h with h | h <;> simp [h]

/-- The podIP filter of `HandleEvent` passes whenever the podIP field is not
present-but-empty. -/
theorem podIP_cond_false (obj : Unstructured) (h : obj.podIP ≠ some "") :
    (obj.podIP.isSome && ((obj.podIP.getD "").length == 0)) = false := by
  cases hp : obj.podIP with
  | none => simp
  | some s =>
    have hs : s.length ≠ 0 :=
      String.length_ne_zero_of_ne_empty s (by rintro rfl; exact h hp)
    simp [hs]

/-- A delete-action notification passing both filters is always translated
into an event with both flags false. -/
theorem handleEvent_delete (obj oldObj : Unstructured)
    (h1 : obj.phase = none ∨ obj.phase = some "Running")
    (h2 : obj.podIP ≠ some "") :
    handleEvent obj oldObj "delete" =
      some { PodIP := obj.podIP.getD ""
             ResourceVersion := obj.resourceVersion
             AttachIP := false
             ShiedAdv := false } := by
  simp [handleEvent, phase_cond_false obj h1, podIP_cond_false obj h2]

/-- Every emitted event carries as identity the podIP string extracted from
the snapshot (the zero value `""` when the field is absent). -/
theorem handleEvent_emitted_podIP (obj oldObj : Unstructured) (action : String)
    (e : event) (h : handleEvent obj oldObj action = some e) :
    e.PodIP = obj.podIP.getD "" := by
  simp only [handleEvent] at h
  repeat' split at h
  all_goals first
    | (injection h with h; subst h; simp_all)
    | simp_all

/-! ### Claims -/

/-- C5 (counterexample): a create-action notification with the enabling
auto-attach and advanced-shield annotations, phase `Running` and a podIP is
enqueued with both flags false — the `switch` in `HandleEvent` has no
`"create"` case, so the annotations are never inspected, contradicting the
claim that the emitted event has `wantsAddress=true` and
`wantsShieldAdvanced=true`. -/
theorem c5_counterexample :
    handleEvent
        ⟨some "Running", some "10.0.0.5", "100",
          [(typeKey, "auto"), (shieldKey, "advanced")]⟩
        ⟨none, none, "0", []⟩ "create" =
      some ⟨"10.0.0.5", "100", false, false⟩ ∧
    handleEvent
        ⟨some "Running", some "10.0.0.5", "100",
          [(typeKey, "auto"), (shieldKey, "advanced")]⟩
        ⟨none, none, "0", []⟩ "create" ≠
      some ⟨"10.0.0.5", "100", true, true⟩ := by
  constructor
  · rfl
  · decide

/-- C5 (amended): for every update notification that passes the phase and
address filters whose current annotations carry the enabling auto-attach
marker, the emitted event has `AttachIP = true` and `ShiedAdv = true` exactly
when the advanced-shield marker is also present and enabling. -/
theorem c5_update_auto (obj oldObj : Unstructured)
    (h1 : obj.phase = none ∨ obj.phase = some "Running")
    (h2 : obj.podIP ≠ some "")
    (h3 : annEnabled obj.anns typeKey "auto" = true) :
    handleEvent obj oldObj "update" =
      some { PodIP := obj.podIP.getD ""
             ResourceVersion := obj.resourceVersion
             AttachIP := true
             ShiedAdv := annEnabled obj.anns shieldKey "advanced" } := by
  simp [handleEvent, phase_cond_false obj h1, podIP_cond_false obj h2, h3]

/-- C5 (witness): concrete update with the enabling auto-attach marker and no
shield marker. -/
theorem c5_update_auto_witness :
    handleEvent ⟨some "Running", some "10.0.0.5", "100", [(typeKey, "auto")]⟩
        ⟨none, none, "0", []⟩ "update" =
      some ⟨"10.0.0.5", "100", true, false⟩ :=
  c5_update_auto _ _ (Or.inr rfl) (by decide) rfl

/-- C6: an update passing the filters whose current annotations lack the
enabling auto-attach marker is translated according to the previous
snapshot's annotations: an event with both flags false if the old marker was
enabling, nothing otherwise. -/
theorem c6_opt_out (obj oldObj : Unstructured) (b : Bool)
    (h1 : obj.phase = none ∨ obj.phase = some "Running")
    (h2 : obj.podIP ≠ some "")
    (h3 : annEnabled obj.anns typeKey "auto" = false)
    (h4 : annEnabled oldObj.anns typeKey "auto" = b) :
    handleEvent obj oldObj "update" =
      (if b = true then
        some { PodIP := obj.podIP.getD ""
               ResourceVersion := obj.resourceVersion
               AttachIP := false
               ShiedAdv := false }
      else none) := by
  cases b <;>
    simp [handleEvent, phase_cond_false obj h1, podIP_cond_false obj h2, h3, h4]

/-- C6 (witness): opt-out transition — old annotations enabling, new ones
empty — emits the both-flags-false event. -/
theorem c6_opt_out_witness :
    handleEvent ⟨some "Running", some "10.0.0.5", "101", []⟩
        ⟨some "Running", some "10.0.0.5", "100", [(typeKey, "auto")]⟩
        "update" =
      (if (true : Bool) = true then
        some ⟨"10.0.0.5", "101", false, false⟩
      else none) :=
  c6_opt_out _ _ true (Or.inr rfl) (by decide) rfl rfl

/-- C7: every delete-action notification passing the phase and address
filters is translated into an event with `AttachIP = false` and
`ShiedAdv = false` and handed to `insert2Queue`. -/
theorem c7_delete (obj oldObj : Unstructured)
    (h1 : obj.phase = none ∨ obj.phase = some "Running")
    (h2 : obj.podIP ≠ some "") :
    handleEvent obj oldObj "delete" =
      some { PodIP := obj.podIP.getD ""
             ResourceVersion := obj.resourceVersion
             AttachIP := false
             ShiedAdv := false } :=
  handleEvent_delete obj oldObj h1 h2

/-- C7 (witness): concrete delete notification. -/
theorem c7_delete_witness :
    handleEvent ⟨some "Running", some "10.0.0.5", "102", [(typeKey, "auto")]⟩
        ⟨none, none, "0", []⟩ "delete" =
      some ⟨"10.0.0.5", "102", false, false⟩ :=
  c7_delete _ _ (Or.inr rfl) (by decide)

/-- C8: a notification whose phase is present and not `"Running"`, or whose
podIP is present but empty, is discarded silently for every action kind:
no event is produced and nothing is enqueued. -/
theorem c8_filters (obj oldObj : Unstructured) (action p : String)
    (h : (obj.phase = some p ∧ p ≠ "Running") ∨ obj.podIP = some "") :
    handleEvent obj oldObj action = none := by
  rcases h with ⟨hp, hne⟩ | hip
  · simp [handleEvent, hp, hne]
  · by_cases hc : (obj.phase.isSome && (obj.phase.getD "" != "Running")) = true
    · simp [handleEvent, hc]
    · simp [handleEvent, hc, hip]

/-- C8 (witness): a pending-phase notification is discarded. -/
theorem c8_filters_witness :
    handleEvent ⟨some "Pending", some "10.0.0.5", "100", [(typeKey, "auto")]⟩
        ⟨none, none, "0", []⟩ "update" = none :=
  c8_filters _ _ "update" "Pending" (Or.inl ⟨rfl, by decide⟩)

/-- C9: every event the translator emits satisfies the invariant
`AttachIP = false → ShiedAdv = false`; no reachable path produces
`AttachIP = false` with `ShiedAdv = true`. -/
theorem c9_invariant (obj oldObj : Unstructured) (action : String) (e : event)
    (h1 : handleEvent obj oldObj action = some e)
    (h2 : e.AttachIP = false) :
    e.ShiedAdv = false := by
  simp only [handleEvent] at h1
  repeat' split at h1
  all_goals first
    | (injection h1 with h1; subst h1; simp_all)
    | simp_all

/-- C9 (witness): the invariant applied to a concrete emitted delete event. -/
theorem c9_invariant_witness :
    (⟨"10.0.0.5", "100", false, false⟩ : event).ShiedAdv = false :=
  c9_invariant ⟨some "Running", some "10.0.0.5", "100", []⟩ ⟨none, none, "0", []⟩
    "delete" ⟨"10.0.0.5", "100", false, false⟩ rfl rfl

/-- C10 (counterexample): a notification whose snapshot lacks the podIP
field, with phase `Running` and an update action carrying no annotations on
either snapshot, is discarded — nothing is enqueued, contradicting the claim
that every such notification yields an enqueued event with empty identity. -/
theorem c10_counterexample :
    handleEvent ⟨some "Running", none, "5", []⟩ ⟨none, none, "0", []⟩
      "update" = none := by
  rfl

/-- C10 (amended): when the snapshot lacks the podIP field the emptiness
check does not apply — a delete-action notification passing the phase filter
is enqueued with the empty string as identity, and in general every event
emitted for a podIP-less snapshot has the empty string as identity. -/
theorem c10_missing_podIP (obj oldObj obj2 oldObj2 : Unstructured)
    (a : String) (e : event)
    (h1 : obj.podIP = none)
    (h2 : obj.phase = none ∨ obj.phase = some "Running")
    (h3 : obj2.podIP = none)
    (h4 : handleEvent obj2 oldObj2 a = some e) :
    handleEvent obj oldObj "delete" =
      some { PodIP := ""
             ResourceVersion := obj.resourceVersion
             AttachIP := false
             ShiedAdv := false } ∧
    e.PodIP = "" := by
  constructor
  · have hd := handleEvent_delete obj oldObj h2 (by simp [h1])
    simpa [h1] using hd
  · have hp := handleEvent_emitted_podIP obj2 oldObj2 a e h4
    simpa [h3] using hp

/-- C10 (witness): a delete notification for a snapshot with no podIP field
is enqueued with identity `""`. -/
theorem c10_missing_podIP_witness :
    handleEvent ⟨some "Running", none, "5", []⟩ ⟨none, none, "0", []⟩
        "delete" = some ⟨"", "5", false, false⟩ ∧
    (⟨"", "5", false, false⟩ : event).PodIP = "" :=
  c10_missing_podIP ⟨some "Running", none, "5", []⟩ ⟨none, none, "0", []⟩
    ⟨some "Running", none, "5", []⟩ ⟨none, none, "0", []⟩ "delete"
    ⟨"", "5", false, false⟩ rfl (Or.inr rfl) rfl rfl

/-- C1 (counterexample): submitting the same `(identity, version)` twice when
the first submission's creation call fails results in two reconciliation
calls, not one — the failed creation records nothing in state, so the
redelivery is not recognized as a duplicate and retries the creation. -/
theorem c1_counterexample :
    (processList (fun n _ => if n = 0 then some "create failed" else none) 0
        []
        [⟨"10.0.0.5", "100", true, false⟩,
         ⟨"10.0.0.5", "100", true, false⟩]).calls.length = 2 := by
  rfl

/-- C1 (amended): an event whose identity has a lane-state entry with the
same version is discarded without a reconciliation call and without touching
the state map; hence submitting the same `(identity, version)` twice results
in exactly one reconciliation call provided the first submission's creation
call succeeds. -/
theorem c1_duplicate_suppression
    (oracle : Nat → ReconcileCall → Option String)
    (f : ReconcileCall → Option String)
    (m m2 : List (String × event)) (e e2 val : event)
    (h1 : List.lookup e.PodIP m = none)
    (h2 : oracle 0 (ReconcileCall.create e) = none)
    (h3 : List.lookup e2.PodIP m2 = some val)
    (h4 : val.ResourceVersion = e2.ResourceVersion) :
    (processOne f m2 e2).calls = [] ∧
    (processOne f m2 e2).statusMap = m2 ∧
    (processList oracle 0 m [e, e]).calls = [ReconcileCall.create e] := by
  have hv : (val.ResourceVersion == e2.ResourceVersion) = true := by
    simpa using h4
  refine ⟨by simp [processOne, h3, hv], by simp [processOne, h3, hv], ?_⟩
  simp [processList, processOne, h1, h2, lookup_mapSet_self]

/-- C1 (witness): a concrete duplicate is discarded, and processing the same
event twice from an empty lane with a succeeding creation call performs one
reconciliation call. -/
theorem c1_duplicate_suppression_witness :
    (processOne (fun _ => none)
        [("10.0.0.5", ⟨"10.0.0.5", "100", true, false⟩)]
        ⟨"10.0.0.5", "100", true, false⟩).calls = [] ∧
    (processOne (fun _ => none)
        [("10.0.0.5", ⟨"10.0.0.5", "100", true, false⟩)]
        ⟨"10.0.0.5", "100", true, false⟩).statusMap =
      [("10.0.0.5", ⟨"10.0.0.5", "100", true, false⟩)] ∧
    (processList (fun _ _ => none) 0 []
        [⟨"10.0.0.5", "100", true, false⟩,
         ⟨"10.0.0.5", "100", true, false⟩]).calls =
      [ReconcileCall.create ⟨"10.0.0.5", "100", true, false⟩] :=
  c1_duplicate_suppression (fun _ _ => none) (fun _ => none) []
    [("10.0.0.5", ⟨"10.0.0.5", "100", true, false⟩)]
    ⟨"10.0.0.5", "100", true, false⟩ ⟨"10.0.0.5", "100", true, false⟩
    ⟨"10.0.0.5", "100", true, false⟩ rfl rfl rfl rfl

/-- C2 (counterexample): a failing transition reconciliation call leaves no
log record of the error — `Handler.process` discards the return value of
`e.Process(&val, …)` unexamined, so the only log emitted for the event is
the generic per-event info line. -/
theorem c2_counterexample :
    (processOne (fun _ => some "reconcile failed")
        [("10.0.0.5", ⟨"10.0.0.5", "99", true, false⟩)]
        ⟨"10.0.0.5", "100", false, false⟩).calls =
      [ReconcileCall.transition ⟨"10.0.0.5", "99", true, false⟩
        ⟨"10.0.0.5", "100", false, false⟩] ∧
    ((fun _ => some "reconcile failed") : ReconcileCall → Option String)
        (ReconcileCall.transition ⟨"10.0.0.5", "99", true, false⟩
          ⟨"10.0.0.5", "100", false, false⟩) = some "reconcile failed" ∧
    (processOne (fun _ => some "reconcile failed")
        [("10.0.0.5", ⟨"10.0.0.5", "99", true, false⟩)]
        ⟨"10.0.0.5", "100", false, false⟩).logs =
      [LogEntry.info "process event"] :=
  ⟨rfl, rfl, rfl⟩

/-- C2 (amended): creation reconciliation errors are logged — a
`logrus.Error` record carrying the error is emitted before the event is
dropped without state commit; transition reconciliation outcomes are
discarded unexamined and the worker emits no record of them whatsoever. -/
theorem c2_error_logging (f g : ReconcileCall → Option String)
    (m m2 : List (String × event)) (e e2 val : event) (err : String)
    (h1 : List.lookup e.PodIP m = none)
    (h2 : f (ReconcileCall.create e) = some err)
    (h3 : List.lookup e2.PodIP m2 = some val)
    (h4 : val.ResourceVersion ≠ e2.ResourceVersion) :
    LogEntry.errorLog err ∈ (processOne f m e).logs ∧
    (processOne f m e).statusMap = m ∧
    (processOne g m2 e2).logs = [LogEntry.info "process event"] := by
  have hv : (val.ResourceVersion == e2.ResourceVersion) = false := by
    simpa using h4
  exact ⟨by simp [processOne, h1, h2], by simp [processOne, h1, h2],
    by simp [processOne, h3, hv]⟩

/-- C2 (witness): a concrete failing creation is logged and not committed;
a concrete failing transition leaves only the generic info line. -/
theorem c2_error_logging_witness :
    LogEntry.errorLog "boom" ∈
      (processOne (fun _ => some "boom") [] ⟨"10.0.0.5", "100", true, false⟩).logs ∧
    (processOne (fun _ => some "boom") []
        ⟨"10.0.0.5", "100", true, false⟩).statusMap = [] ∧
    (processOne (fun _ => some "boom")
        [("10.0.0.5", ⟨"10.0.0.5", "99", true, false⟩)]
        ⟨"10.0.0.5", "100", false, false⟩).logs =
      [LogEntry.info "process event"] :=
  c2_error_logging (fun _ => some "boom") (fun _ => some "boom") []
    [("10.0.0.5", ⟨"10.0.0.5", "99", true, false⟩)]
    ⟨"10.0.0.5", "100", true, false⟩ ⟨"10.0.0.5", "100", false, false⟩
    ⟨"10.0.0.5", "99", true, false⟩ "boom" rfl rfl rfl (by decide)

/-- C3: an event whose identity has no lane-state entry triggers the creation
path (`e.Process(nil, …)`); on failure the event is discarded with the
lane's state map unchanged, so a redelivery performs the creation call again
from scratch. -/
theorem c3_create_failure (f g : ReconcileCall → Option String)
    (m : List (String × event)) (e : event) (err : String)
    (h1 : List.lookup e.PodIP m = none)
    (h2 : f (ReconcileCall.create e) = some err) :
    (processOne f m e).calls = [ReconcileCall.create e] ∧
    (processOne f m e).statusMap = m ∧
    (processOne g (processOne f m e).statusMap e).calls =
      [ReconcileCall.create e] := by
  have hmap : (processOne f m e).statusMap = m := by simp [processOne, h1, h2]
  refine ⟨by simp [processOne, h1, h2], hmap, ?_⟩
  rw [hmap]
  cases hg : g (ReconcileCall.create e) <;> simp [processOne, h1, hg]

/-- C3 (witness): a concrete failed creation leaves the lane state empty and
the redelivery issues the creation call again. -/
theorem c3_create_failure_witness :
    (processOne (fun _ => some "attach failed") []
        ⟨"10.0.0.5", "100", true, false⟩).calls =
      [ReconcileCall.create ⟨"10.0.0.5", "100", true, false⟩] ∧
    (processOne (fun _ => some "attach failed") []
        ⟨"10.0.0.5", "100", true, false⟩).statusMap = [] ∧
    (processOne (fun _ => none)
        (processOne (fun _ => some "attach failed") []
          ⟨"10.0.0.5", "100", true, false⟩).statusMap
        ⟨"10.0.0.5", "100", true, false⟩).calls =
      [ReconcileCall.create ⟨"10.0.0.5", "100", true, false⟩] :=
  c3_create_failure (fun _ => some "attach failed") (fun _ => none) []
    ⟨"10.0.0.5", "100", true, false⟩ "attach failed" rfl rfl

/-- C4: an event whose identity has a lane-state entry with a different
version triggers the transition path with `(previous event, new event)`, and
the new event is committed as the lane's state for that identity no matter
what the reconciliation outcome is (the oracle `f` is arbitrary). -/
theorem c4_transition (f : ReconcileCall → Option String)
    (m : List (String × event)) (e val : event)
    (h1 : List.lookup e.PodIP m = some val)
    (h2 : val.ResourceVersion ≠ e.ResourceVersion) :
    (processOne f m e).calls = [ReconcileCall.transition val e] ∧
    (processOne f m e).statusMap = mapSet m e.PodIP e := by
  have hv : (val.ResourceVersion == e.ResourceVersion) = false := by
    simpa using h2
  exact ⟨by simp [processOne, h1, hv], by simp [processOne, h1, hv]⟩

/-- C4 (witness): a concrete transition whose reconciliation call fails is
still committed to the lane state. -/
theorem c4_transition_witness :
    (processOne (fun _ => some "transition failed")
        [("10.0.0.5", ⟨"10.0.0.5", "99", true, false⟩)]
        ⟨"10.0.0.5", "100", false, false⟩).calls =
      [ReconcileCall.transition ⟨"10.0.0.5", "99", true, false⟩
        ⟨"10.0.0.5", "100", false, false⟩] ∧
    (processOne (fun _ => some "transition failed")
        [("10.0.0.5", ⟨"10.0.0.5", "99", true, false⟩)]
        ⟨"10.0.0.5", "100", false, false⟩).statusMap =
      mapSet [("10.0.0.5", ⟨"10.0.0.5", "99", true, false⟩)] "10.0.0.5"
        ⟨"10.0.0.5", "100", false, false⟩ :=
  c4_transition (fun _ => some "transition failed")
    [("10.0.0.5", ⟨"10.0.0.5", "99", true, false⟩)]
    ⟨"10.0.0.5", "100", false, false⟩ ⟨"10.0.0.5", "99", true, false⟩
    rfl (by decide)
